import Mathlib

/-!
Verification of the adem-marangoz/logging repository (logging.hpp / logging.cpp).

The C++ code is shallowly embedded: the logger members become a `LoggerState`
record, and the observable effects (file writes, console output, the error
stream, file-open attempts) become an explicit `World` record threaded through
each operation.  The wall clock (`getCurrentTime`) is impure in the source, so
every operation that stamps a line takes the clock reading as an explicit
`now : String` argument.  Severity values (`enum class log_level : uint8_t`)
are embedded as natural numbers with DEBUG = 0, INFO = 1, WARNING = 2,
ERROR = 3, FATAL = 4, UNKNOWN = 5.
-/

namespace Logging

/-- Embeds `filename.find_last_of('.') != std::string::npos`: whether the
string has a dot anywhere (the source only tests npos-ness of the result). -/
def contains_dot (s : String) : Bool := s.toList.contains '.'

/-- The name actually passed to `std::ofstream::open`: the source appends
".log" to its local copy of the path exactly when the path has no dot. -/
def resolved_log_name (filename : String) : String :=
  if contains_dot filename then filename else filename ++ ".log"

/-- Embeds `std::string formatField(const std::string& input, size_t width)`.
The C++ declaration gives `width` the default 15; call sites here pass it
explicitly.  `input.substr(0, width)` is the first `width` characters and
`std::string(width - input.length(), ' ')` is that many spaces. -/
def formatField (input : String) (width : Nat) : String :=
  if input.length > width then (input.toList.take width).asString
  else input ++ (List.replicate (width - input.length) ' ').asString

/-- Embeds `std::string logLevelToString(logging::log_level level)`:
the five named severities map to their names, the `default:` arm of the
switch (which covers UNKNOWN = 5 and every other underlying uint8_t value)
returns "UNKNOWN". -/
def logLevelToString (level : Nat) : String :=
  match level with
  | 0 => "DEBUG"
  | 1 => "INFO"
  | 2 => "WARNING"
  | 3 => "ERROR"
  | 4 => "FATAL"
  | _ => "UNKNOWN"

/-- The logger members (logging.hpp): `print_log`, `filename`, the file sink
(`std::ofstream log_file`, embedded as the name of the open file or `none`),
and the stored `level`. -/
structure LoggerState where
  print_log : Bool
  filename : String
  log_file : Option String
  level : Nat
deriving DecidableEq

/-- The observable environment: which open-in-append-mode calls succeed,
the lines already in each file, the console (stdout) lines, the error
stream (stderr) lines, and the names passed to `open` so far. -/
structure World where
  openable : String → Bool
  files : String → List String
  console : List String
  errstream : List String
  open_attempts : List String

/-- Append one line at the end of one file, leaving every other file alone. -/
def appendLine (files : String → List String) (name line : String) :
    String → List String :=
  fun s => if s = name then files s ++ [line] else files s

/-- The line built by both `add_log` overloads:
`"[" + formatField(time) + "] " + "[" + formatField(levelText) + "] " +
"[" + formatField(fun_name) + "] " + message + "\n"`. -/
def log_message (current_time : String) (level : Nat)
    (fun_name message : String) : String :=
  "[" ++ formatField current_time 15 ++ "] "
    ++ "[" ++ formatField (logLevelToString level) 15 ++ "] "
    ++ "[" ++ formatField fun_name 15 ++ "] "
    ++ message ++ "\n"

/-- Embeds `void logging::add_log(log_level level, const char* fun_name,
std::string message)`: builds the line, prints it to the console when
`print_log` is set, and, when the file sink is open, seeks to end-of-file
and writes it (embedded as appending the line at the end of that file). -/
def add_log (st : LoggerState) (w : World) (current_time : String)
    (level : Nat) (fun_name message : String) : World :=
  let lm := log_message current_time level fun_name message
  let w1 := if st.print_log then { w with console := w.console ++ [lm] } else w
  match st.log_file with
  | some f => { w1 with files := appendLine w1.files f lm }
  | none => w1

/-- Embeds `void logging::add_log(const char* fun_name, std::string message)`:
the source duplicates the three-argument body verbatim, reading
`this->level` where the other overload reads its parameter. -/
def add_log2 (st : LoggerState) (w : World) (current_time : String)
    (fun_name message : String) : World :=
  let lm := log_message current_time st.level fun_name message
  let w1 := if st.print_log then { w with console := w.console ++ [lm] } else w
  match st.log_file with
  | some f => { w1 with files := appendLine w1.files f lm }
  | none => w1

/-- The fixed divider message of the bootstrap record. -/
def divider : String := "============================================"

/-- Embeds the constructor `logging::logging(std::string filename, bool
print_log)`.  The init list copies both parameters into the members; the
body then mutates only its local parameter copies: it suffixes the local
`filename` before `open`, and on open failure writes `std::cerr` and sets
the local `print_log` to false — the members are untouched on that path.
The member `level` is never initialized; `initLevel` stands for its
indeterminate contents.  Finally the constructor emits the bootstrap
record at level UNKNOWN (= 5) through `add_log`, which reads the members. -/
def construct (w : World) (now : String) (initLevel : Nat)
    (filename : String) (print_log : Bool) : LoggerState × World :=
  let st : LoggerState :=
    { print_log := print_log, filename := filename
      log_file := none, level := initLevel }
  if filename = "" then
    (st, add_log st w now 5 "New logger" divider)
  else
    let fname := resolved_log_name filename
    let w1 := { w with open_attempts := w.open_attempts ++ [fname] }
    if w.openable fname then
      let st1 := { st with log_file := some fname }
      (st1, add_log st1 w1 now 5 "New logger" divider)
    else
      let w2 := { w1 with
        errstream := w1.errstream ++ ["Can't open log file " ++ fname ++ "\n"] }
      (st, add_log st w2 now 5 "New logger" divider)

/-- Embeds `void logging::set_log_level(log_level level)`. -/
def set_log_level (st : LoggerState) (level : Nat) : LoggerState :=
  { st with level := level }

/-- Embeds `void logging::change_log_file(const std::string& new_filename)`:
closes the current sink if open, stores the new path in the member
`filename`, suffixes the member with ".log" when it has no dot, reopens in
append mode, and on failure writes `std::cerr` and sets the member
`print_log` to false (here `print_log` names the member — there is no
shadowing parameter in this function). -/
def change_log_file (st : LoggerState) (w : World)
    (new_filename : String) : LoggerState × World :=
  let st1 := { st with log_file := none, filename := new_filename }
  if st1.filename = "" then
    (st1, w)
  else
    let fn := resolved_log_name st1.filename
    let st2 := { st1 with filename := fn }
    let w1 := { w with open_attempts := w.open_attempts ++ [fn] }
    if w.openable fn then
      ({ st2 with log_file := some fn }, w1)
    else
      ({ st2 with print_log := false },
       { w1 with
         errstream := w1.errstream ++ ["Can't open log file " ++ fn ++ "\n"] })

/-- Embeds `logging* logging::get_instance(std::string filename, bool
print_log)`: under the instance mutex, constructs the singleton from the
given arguments when absent, otherwise returns the existing instance
untouched.  The static `instance` cell is threaded as an explicit
`Option LoggerState`. -/
def get_instance (inst : Option LoggerState) (w : World) (now : String)
    (initLevel : Nat) (filename : String) (print_log : Bool) :
    LoggerState × Option LoggerState × World :=
  match inst with
  | some l => (l, some l, w)
  | none =>
    let r := construct w now initLevel filename print_log
    (r.1, some r.1, r.2)

/-- A world in which every open fails, with empty streams and files. -/
def failWorld : World :=
  { openable := fun _ => false, files := fun _ => []
    console := [], errstream := [], open_attempts := [] }

/-- A world in which every open succeeds, with empty streams and files. -/
def okWorld : World :=
  { openable := fun _ => true, files := fun _ => []
    console := [], errstream := [], open_attempts := [] }

/-- C9: formatField returns a string of exactly `width` characters — the
first `width` characters of the input when the input is longer, otherwise
the input followed by spaces on the right; in particular on "abc" with
width 15 it gives "abc" plus 12 spaces, and on "a_very_long_origin_name"
it gives the first 15 characters.  (Purity is inherent: it is a function.) -/
theorem C9_formatField_pad_or_truncate (input : String) (width : Nat) :
    (formatField input width).length = width ∧
    (formatField input width).toList =
      input.toList.take width ++ List.replicate (width - input.length) ' ' ∧
    formatField "abc" 15 = "abc            " ∧
    formatField "a_very_long_origin_name" 15 = "a_very_long_ori" := by
  refine ⟨?_, ?_, by decide, by decide⟩
  · unfold formatField
    have hlen : input.toList.length = input.length := rfl
    by_cases h : input.length > width
    · rw [if_pos h, List.length_asString, List.length_take]
      omega
    · rw [if_neg h, String.length_append, List.length_asString, List.length_replicate]
      omega
  · unfold formatField
    have hlen : input.toList.length = input.length := rfl
    by_cases h : input.length > width
    · rw [if_pos h, List.toList_asString, Nat.sub_eq_zero_of_le (le_of_lt h)]
      simp
    · have htake : input.toList.take width = input.toList :=
        List.take_of_length_le (by omega)
      rw [if_neg h, htake]
      show input.toList ++ (List.replicate (width - input.length) ' ').asString.toList
        = input.toList ++ List.replicate (width - input.length) ' '
      rw [List.toList_asString]

/-- C10: logLevelToString is total — each of the five defined severities
DEBUG..FATAL (values 0..4) maps to its non-empty uppercase name, and every
other value of the level type maps to "UNKNOWN". -/
theorem C10_logLevelToString_total (l : Nat) (h : 4 < l) :
    logLevelToString l = "UNKNOWN" ∧
    logLevelToString 0 = "DEBUG" ∧ logLevelToString 1 = "INFO" ∧
    logLevelToString 2 = "WARNING" ∧ logLevelToString 3 = "ERROR" ∧
    logLevelToString 4 = "FATAL" := by
  obtain ⟨n, rfl⟩ : ∃ n, l = n + 5 := ⟨l - 5, by omega⟩
  exact ⟨rfl, rfl, rfl, rfl, rfl, rfl⟩

/-- Witness for C10 at the out-of-range value 200. -/
theorem C10_witness :
    4 < 200 ∧
    (logLevelToString 200 = "UNKNOWN" ∧
     logLevelToString 0 = "DEBUG" ∧ logLevelToString 1 = "INFO" ∧
     logLevelToString 2 = "WARNING" ∧ logLevelToString 3 = "ERROR" ∧
     logLevelToString 4 = "FATAL") :=
  ⟨by decide, C10_logLevelToString_total 200 (by decide)⟩

/-- C6: the two-argument overload produces exactly the same world (emitted
line and all) as the three-argument overload called at the level most
recently stored via set_log_level — it reads this member, not a fixed
default. -/
theorem C6_default_overload_uses_stored_level (st : LoggerState) (L : Nat)
    (w : World) (now fun_name message : String) :
    add_log2 (set_log_level st L) w now fun_name message =
      add_log (set_log_level st L) w now L fun_name message := rfl

/-- C5: starting from no instance, the first get_instance call constructs
the singleton from its own arguments; a second call with arbitrary (and
possibly different) arguments returns the very same state, leaves the
instance cell and the world untouched; and in general any call made while
an instance exists returns that instance unchanged. -/
theorem C5_get_instance_singleton (w w2 : World) (now1 now2 : String)
    (il1 il2 : Nat) (f1 f2 : String) (p1 p2 : Bool) (l : LoggerState) :
    ((get_instance none w now1 il1 f1 p1).1 = (construct w now1 il1 f1 p1).1 ∧
     (get_instance none w now1 il1 f1 p1).2.1 =
       some (get_instance none w now1 il1 f1 p1).1 ∧
     (get_instance (get_instance none w now1 il1 f1 p1).2.1
         (get_instance none w now1 il1 f1 p1).2.2 now2 il2 f2 p2).1 =
       (get_instance none w now1 il1 f1 p1).1 ∧
     (get_instance (get_instance none w now1 il1 f1 p1).2.1
         (get_instance none w now1 il1 f1 p1).2.2 now2 il2 f2 p2).2.1 =
       some (get_instance none w now1 il1 f1 p1).1 ∧
     (get_instance (get_instance none w now1 il1 f1 p1).2.1
         (get_instance none w now1 il1 f1 p1).2.2 now2 il2 f2 p2).2.2 =
       (get_instance none w now1 il1 f1 p1).2.2) ∧
    get_instance (some l) w2 now2 il2 f2 p2 = (l, some l, w2) :=
  ⟨⟨rfl, rfl, rfl, rfl, rfl⟩, rfl⟩

/-- C1 counter-evidence: constructing with an unopenable non-empty path and
the console flag false leaves the stored console flag false (the
failure-path assignment hits the shadowing parameter, and writes false, not
true), so console emission is NOT forced on; the diagnostic does reach the
error stream and the file sink is absent, and nothing at all is emitted. -/
theorem C1_constructor_open_failure_keeps_console_off :
    ((construct failWorld "00:00:00.000" 0 "badpath" false).1.print_log = false) ∧
    ((construct failWorld "00:00:00.000" 0 "badpath" false).1.log_file = none) ∧
    ((construct failWorld "00:00:00.000" 0 "badpath" false).2.errstream =
      ["Can't open log file badpath.log\n"]) ∧
    ((construct failWorld "00:00:00.000" 0 "badpath" false).2.console = []) ∧
    (∀ f, (construct failWorld "00:00:00.000" 0 "badpath" false).2.files f = []) := by
  refine ⟨by decide, by decide, by decide, by decide, fun f => rfl⟩

/-- C2 counter-evidence: a change_log_file whose reopen fails DISABLES
console emission (it sets the member print_log to false) rather than
leaving it enabled: starting from a logger with console on and a file sink
open, after the failing switch the console flag is false and the sink is
absent, with the diagnostic on the error stream. -/
theorem C2_change_log_file_failure_disables_console :
    (({ print_log := true, filename := "app", log_file := some "app.log",
        level := 1 : LoggerState }).print_log = true) ∧
    ((change_log_file
        { print_log := true, filename := "app", log_file := some "app.log",
          level := 1 } failWorld "newpath").1.print_log = false) ∧
    ((change_log_file
        { print_log := true, filename := "app", log_file := some "app.log",
          level := 1 } failWorld "newpath").1.log_file = none) ∧
    ((change_log_file
        { print_log := true, filename := "app", log_file := some "app.log",
          level := 1 } failWorld "newpath").2.errstream =
      ["Can't open log file newpath.log\n"]) := by
  refine ⟨rfl, by decide, by decide, by decide⟩

/-- C3: for every level, origin and message, a log call on a logger with
console emission enabled appends exactly one line to the console, and that
line is the four bracketed fields in order — time, level, origin, message —
whatever the call level and the stored minimum level are: no level-based
suppression. -/
theorem C3_add_log_emits_one_line_no_suppression
    (st : LoggerState) (w : World) (now : String) (level : Nat)
    (origin message : String) (h : st.print_log = true) :
    (add_log st w now level origin message).console =
      w.console ++
        ["[" ++ formatField now 15 ++ "] "
          ++ "[" ++ formatField (logLevelToString level) 15 ++ "] "
          ++ "[" ++ formatField origin 15 ++ "] "
          ++ message ++ "\n"] := by
  unfold add_log log_message
  cases hf : st.log_file <;> simp [h, hf]

/-- Witness for C3: a call at level 1 (INFO) on a logger whose stored
minimum level is 3 (ERROR) still emits its line. -/
theorem C3_witness :
    (add_log { print_log := true, filename := "", log_file := none, level := 3 }
        failWorld "12:00:00.000" 1 "main" "hello").console =
      failWorld.console ++
        ["[" ++ formatField "12:00:00.000" 15 ++ "] "
          ++ "[" ++ formatField (logLevelToString 1) 15 ++ "] "
          ++ "[" ++ formatField "main" 15 ++ "] "
          ++ "hello" ++ "\n"] :=
  C3_add_log_emits_one_line_no_suppression _ _ _ _ _ _ rfl

/-- C4: constructing with a non-empty path whose open fails and the console
flag false yields a logger with no active sink at all: the stored console
flag stays false, the file sink is absent, the bootstrap marker emits
nothing, and every subsequent log call (either overload) emits nothing to
the console or to any file. -/
theorem C4_open_failure_with_console_off_yields_no_sink
    (w : World) (now now2 : String) (initLevel : Nat) (path : String)
    (lvl : Nat) (origin message : String)
    (hne : path ≠ "")
    (hfail : w.openable (resolved_log_name path) = false) :
    ((construct w now initLevel path false).1.print_log = false) ∧
    ((construct w now initLevel path false).1.log_file = none) ∧
    ((construct w now initLevel path false).2.console = w.console) ∧
    (∀ f, (construct w now initLevel path false).2.files f = w.files f) ∧
    ((add_log (construct w now initLevel path false).1
        (construct w now initLevel path false).2 now2 lvl origin message).console
      = w.console) ∧
    (∀ f, (add_log (construct w now initLevel path false).1
        (construct w now initLevel path false).2 now2 lvl origin message).files f
      = w.files f) ∧
    ((add_log2 (construct w now initLevel path false).1
        (construct w now initLevel path false).2 now2 origin message).console
      = w.console) ∧
    (∀ f, (add_log2 (construct w now initLevel path false).1
        (construct w now initLevel path false).2 now2 origin message).files f
      = w.files f) := by
  unfold construct
  rw [if_neg hne]
  simp [hfail, add_log, add_log2]

/-- Witness for C4 at path "badpath" in a world where every open fails. -/
theorem C4_witness :
    ("badpath" ≠ "") ∧
    (failWorld.openable (resolved_log_name "badpath") = false) ∧
    (((construct failWorld "t1" 0 "badpath" false).1.print_log = false) ∧
     ((construct failWorld "t1" 0 "badpath" false).1.log_file = none) ∧
     ((construct failWorld "t1" 0 "badpath" false).2.console = failWorld.console) ∧
     (∀ f, (construct failWorld "t1" 0 "badpath" false).2.files f = failWorld.files f) ∧
     ((add_log (construct failWorld "t1" 0 "badpath" false).1
         (construct failWorld "t1" 0 "badpath" false).2 "t2" 1 "main" "msg").console
       = failWorld.console) ∧
     (∀ f, (add_log (construct failWorld "t1" 0 "badpath" false).1
         (construct failWorld "t1" 0 "badpath" false).2 "t2" 1 "main" "msg").files f
       = failWorld.files f) ∧
     ((add_log2 (construct failWorld "t1" 0 "badpath" false).1
         (construct failWorld "t1" 0 "badpath" false).2 "t2" "main" "msg").console
       = failWorld.console) ∧
     (∀ f, (add_log2 (construct failWorld "t1" 0 "badpath" false).1
         (construct failWorld "t1" 0 "badpath" false).2 "t2" "main" "msg").files f
       = failWorld.files f)) :=
  ⟨by decide, rfl,
   C4_open_failure_with_console_off_yields_no_sink
     failWorld "t1" "t2" 0 "badpath" 1 "main" "msg" (by decide) rfl⟩

/-- C7: after a successful change_log_file to "other", the file sink is the
freshly opened "other.log" (the previous handle is closed and replaced),
the switch itself writes nothing to the old file, and a subsequent log call
appends its line at the end of "other.log" while leaving the old file
untouched. -/
theorem C7_change_sink_redirects
    (st : LoggerState) (w : World) (old : String) (now : String)
    (lvl : Nat) (origin message : String)
    (hopen : st.log_file = some old)
    (hok : w.openable "other.log" = true)
    (hneq : old ≠ "other.log") :
    ((change_log_file st w "other").1.log_file = some "other.log") ∧
    ((change_log_file st w "other").2.files old = w.files old) ∧
    ((add_log (change_log_file st w "other").1 (change_log_file st w "other").2
        now lvl origin message).files old
      = (change_log_file st w "other").2.files old) ∧
    ((add_log (change_log_file st w "other").1 (change_log_file st w "other").2
        now lvl origin message).files "other.log"
      = (change_log_file st w "other").2.files "other.log"
          ++ [log_message now lvl origin message]) := by
  have hres : resolved_log_name "other" = "other.log" := by decide
  unfold change_log_file
  simp only [hres, hok]
  unfold add_log appendLine
  cases hp : st.print_log <;> simp [hneq]

/-- Witness for C7: a logger whose sink is "app.log" switched to "other"
in a world where every open succeeds. -/
theorem C7_witness :
    (({ print_log := true, filename := "app", log_file := some "app.log",
        level := 0 : LoggerState }).log_file = some "app.log") ∧
    (okWorld.openable "other.log" = true) ∧
    ("app.log" ≠ "other.log") ∧
    (((change_log_file
        { print_log := true, filename := "app", log_file := some "app.log",
          level := 0 } okWorld "other").1.log_file = some "other.log") ∧
     ((change_log_file
        { print_log := true, filename := "app", log_file := some "app.log",
          level := 0 } okWorld "other").2.files "app.log"
       = okWorld.files "app.log") ∧
     ((add_log (change_log_file
          { print_log := true, filename := "app", log_file := some "app.log",
            level := 0 } okWorld "other").1
        (change_log_file
          { print_log := true, filename := "app", log_file := some "app.log",
            level := 0 } okWorld "other").2 "t" 1 "main" "msg").files "app.log"
       = (change_log_file
          { print_log := true, filename := "app", log_file := some "app.log",
            level := 0 } okWorld "other").2.files "app.log") ∧
     ((add_log (change_log_file
          { print_log := true, filename := "app", log_file := some "app.log",
            level := 0 } okWorld "other").1
        (change_log_file
          { print_log := true, filename := "app", log_file := some "app.log",
            level := 0 } okWorld "other").2 "t" 1 "main" "msg").files "other.log"
       = (change_log_file
          { print_log := true, filename := "app", log_file := some "app.log",
            level := 0 } okWorld "other").2.files "other.log"
          ++ [log_message "t" 1 "main" "msg"])) :=
  ⟨rfl, rfl, by decide,
   C7_change_sink_redirects
     { print_log := true, filename := "app", log_file := some "app.log",
       level := 0 } okWorld "app.log" "t" 1 "main" "msg" rfl rfl (by decide)⟩

/-- C8: for every non-empty path, both the constructor and change_log_file
attempt to open exactly the resolved name, which is the path with ".log"
appended when the path has no dot and the path unchanged otherwise; in
particular "report" opens "report.log" and "report.txt" opens
"report.txt". -/
theorem C8_opened_file_name_suffix_rule
    (w : World) (now : String) (il : Nat) (p : Bool)
    (st : LoggerState) (path : String) (hne : path ≠ "") :
    ((construct w now il path p).2.open_attempts =
       w.open_attempts ++ [resolved_log_name path]) ∧
    ((change_log_file st w path).2.open_attempts =
       w.open_attempts ++ [resolved_log_name path]) ∧
    (contains_dot path = false → resolved_log_name path = path ++ ".log") ∧
    (contains_dot path = true → resolved_log_name path = path) ∧
    resolved_log_name "report" = "report.log" ∧
    resolved_log_name "report.txt" = "report.txt" := by
  refine ⟨?_, ?_, ?_, ?_, by decide, by decide⟩
  · unfold construct
    rw [if_neg hne]
    cases ho : w.openable (resolved_log_name path) <;> cases p <;>
      simp [add_log, ho]
  · unfold change_log_file
    simp only [hne]
    cases ho : w.openable (resolved_log_name path) <;> simp [hne, ho]
  · intro hd
    simp [resolved_log_name, hd]
  · intro hd
    simp [resolved_log_name, hd]

/-- Witness for C8 at the dotless path "report" and a world where every
open succeeds. -/
theorem C8_witness :
    ("report" ≠ "") ∧
    (((construct okWorld "t" 0 "report" true).2.open_attempts =
        okWorld.open_attempts ++ [resolved_log_name "report"]) ∧
     ((change_log_file
        { print_log := true, filename := "", log_file := none, level := 0 }
        okWorld "report").2.open_attempts =
        okWorld.open_attempts ++ [resolved_log_name "report"]) ∧
     (contains_dot "report" = false → resolved_log_name "report" = "report" ++ ".log") ∧
     (contains_dot "report" = true → resolved_log_name "report" = "report") ∧
     resolved_log_name "report" = "report.log" ∧
     resolved_log_name "report.txt" = "report.txt") :=
  ⟨by decide,
   C8_opened_file_name_suffix_rule okWorld "t" 0 true
     { print_log := true, filename := "", log_file := none, level := 0 }
     "report" (by decide)⟩

end Logging
